import Mathlib

/-!
Verification of `do_python_release/__init__.py` (thusser/do-python-release).

The script is a linear release workflow: pick a hosting provider from the
git remote URL, detect the build backend from `pyproject.toml`, validate
branches, ask for confirmation, then bump/commit/push and drive the
provider API (create PR, merge, release).

Strings from the Python side are modelled as `List Char`; `re.search` for
the two concrete URL patterns of the script is implemented directly with
Python semantics (leftmost match start, greedy capture, `.` excluding
newline, `$` accepting one final newline).  Fallible operations return
`Except`/`Option`; the observable outcome of each workflow phase is an
inductive type recording printed messages and exit codes.
-/

namespace DoPythonRelease

/-- Python whitespace characters recognised by `str.strip()` / `str.split()`
(ASCII subset: space, tab, newline, carriage return, vertical tab, form feed). -/
def isPySpace (c : Char) : Bool :=
  c == ' ' || c == '\t' || c == '\n' || c == '\r' ||
  c == Char.ofNat 11 || c == Char.ofNat 12

/-- Python `str.strip()`: drop leading and trailing whitespace. -/
def pyStrip (s : List Char) : List Char :=
  ((s.dropWhile isPySpace).reverse.dropWhile isPySpace).reverse

/-- Python `needle in haystack` on strings: substring containment
(the empty needle is contained in every string). -/
def isSubstr (needle : List Char) : List Char → Bool
  | [] => needle.isEmpty
  | c :: rest => needle.isPrefixOf (c :: rest) || isSubstr needle rest

/-! ## The `Version` class (lines 79-112)

`Version.__init__` reads `pyproject.toml`, extracts
`['build-system']['build-backend']` and maps it to a backend tool by
string equality; then it checks the tool answers `-V`. -/

/-- The two backend tools the script can end up with (`self.backend`);
`__init__` raises before ever storing anything else. -/
inductive Backend where
  | uv
  | poetry
deriving DecidableEq, Repr

/-- The string stored in `self.backend` (used in f-strings). -/
def Backend.pname : Backend → List Char
  | .uv => "uv".data
  | .poetry => "poetry".data

/-- Lines 82-88: map the `build-backend` identifier to a backend by exact
string comparison (`==`), raising RuntimeError otherwise. -/
def detectBackend (backend : List Char) : Except (List Char) Backend :=
  if backend = "hatchling.build".data then Except.ok Backend.uv
  else if backend = "poetry.core.masonry.api".data then Except.ok Backend.poetry
  else Except.error "Could not determine backend from pyproject.toml.".data

/-- Lines 80-95: full `Version.__init__` — backend detection followed by the
tool-availability check (`shell(f'\x7bself.backend\x7d -V')`, whose failure is
re-raised as RuntimeError `No <tool> found.`).  `toolAvailable b` abstracts
whether the shell probe for tool `b` exits successfully. -/
def versionInit (backend : List Char) (toolAvailable : Backend → Bool) :
    Except (List Char) Backend :=
  match detectBackend backend with
  | Except.error e => Except.error e
  | Except.ok b =>
    if toolAvailable b then Except.ok b
    else Except.error ("No ".data ++ b.pname ++ " found.".data)

/-- Lines 97-98: the shell command issued by `Version.version` —
literally `poetry version`, with no reference to `self.backend`. -/
def Version.versionQueryCmd (self_backend : Backend) : List Char :=
  "poetry version".data

/-- Lines 100-109: `Version.command` — `None` defaults to `patch`, then the
backend-appropriate bump command is built by f-string.  The trailing
`else raise` branch is unreachable because `__init__` only ever stores
`uv` or `poetry`, which is exactly what `Backend` enumerates. -/
def Version.command (self_backend : Backend) (version : Option (List Char)) :
    List Char :=
  let version := match version with
    | none => "patch".data
    | some v => v
  match self_backend with
  | Backend.uv => "uv version --bump ".data ++ version
  | Backend.poetry => "poetry version ".data ++ version

/-! ## Provider selection (lines 133-141)

The script runs `re.search` with two patterns against the remote URL:
`github\.com[:/](.*)\.git$` and `git@gitlab\.gwdg\.de[:/](.*)\.git$`.
Both patterns share the shape `<literal host>[:/](.*)\.git$`, so the
search is modelled once, parameterised by the literal host part.
Python semantics reproduced: the match may start anywhere (leftmost
start wins), `.` does not match a newline, `(.*)` is greedy, and `$`
matches at the end of the string or just before a terminal newline. -/

/-- Match `(.*)\.git$` against the remainder `t` of the string and return
the greedy capture: `t` must be `a ++ ".git"` (or `a ++ ".git\n"` for the
end-of-line semantics of `$`) with no newline inside `a`. -/
def tailCapture (t : List Char) : Option (List Char) :=
  let n := t.length
  if n ≥ 4 ∧ t.drop (n - 4) = ".git".data ∧ '\n' ∉ t.take (n - 4) then
    some (t.take (n - 4))
  else if n ≥ 5 ∧ t.drop (n - 5) = ".git\n".data ∧ '\n' ∉ t.take (n - 5) then
    some (t.take (n - 5))
  else none

/-- Attempt the pattern `<host>[:/](.*)\.git$` at start offset `i` of `s`,
returning the capture group on success. -/
def patMatchAt (host s : List Char) (i : Nat) : Option (List Char) :=
  let t := s.drop i
  if host.isPrefixOf t then
    match t.drop host.length with
    | [] => none
    | c :: rest => if c = ':' ∨ c = '/' then tailCapture rest else none
  else none

/-- `re.search` for the pattern `<host>[:/](.*)\.git$`: try every start
offset from the left and keep the first success. -/
def pySearch (host s : List Char) : Option (List Char) :=
  (List.range (s.length + 1)).foldl (fun acc i => acc <|> patMatchAt host s i) none

/-- Literal host part of the GitHub pattern (line 134). -/
def githubHost : List Char := "github.com".data

/-- Literal host part of the GitLab pattern (line 138). -/
def gitlabHost : List Char := "git@gitlab.gwdg.de".data

/-- The two provider classes of the script. -/
inductive Hoster where
  | github
  | gitlab
deriving DecidableEq, Repr

/-- `hoster.name` (class attributes, lines 15 and 49). -/
def Hoster.pname : Hoster → List Char
  | .github => "GitHub".data
  | .gitlab => "GitLab".data

/-- Lines 133-141: `hoster = None`; search the GitHub pattern and, on a
match, set `repo_name`/`hoster`; then search the GitLab pattern, which
overwrites both on a match.  `none` means both `hoster` and `repo_name`
were left unset. -/
def selectHoster (repo_remote : List Char) : Option (Hoster × List Char) :=
  let r := match pySearch githubHost repo_remote with
    | some cap => some (Hoster.github, cap)
    | none => none
  match pySearch gitlabHost repo_remote with
  | some cap => some (Hoster.gitlab, cap)
  | none => r

/-! ## The `shell` helper (lines 236-238) and the remote-URL phase (126-130) -/

/-- Observable result of one subprocess run: its exit status and captured
standard output. -/
structure ProcResult where
  returncode : Nat
  stdout : List Char
deriving DecidableEq, Repr

/-- Lines 236-238: `subprocess.run(..., check=check)` raises
CalledProcessError on a nonzero exit when `check` is true; otherwise the
captured stdout is returned stripped.  In the script every call site but
one leaves `check` at its default `True`. -/
def shell (res : ProcResult) (check : Bool) : Except (List Char) (List Char) :=
  if check && res.returncode ≠ 0 then Except.error "CalledProcessError".data
  else Except.ok (pyStrip res.stdout)

/-- Outcome of lines 126-130: obtain `remote.origin.url` via `shell`
(with `check` defaulted to true) and guard on emptiness. -/
inductive RemotePhase where
  | raised (msg : List Char)
  | notGitRepo
  | ok (repo_remote : List Char)
deriving DecidableEq, Repr

/-- Lines 126-130: `repo_remote = shell('git config --get remote.origin.url')`;
if the exception propagates the run dies there; otherwise an empty result
prints `Not a git repository.` and exits 1. -/
def remotePhase (res : ProcResult) : RemotePhase :=
  match shell res true with
  | Except.error e => RemotePhase.raised e
  | Except.ok out => if out = [] then RemotePhase.notGitRepo else RemotePhase.ok out

/-! ## Provider selection and token resolution in `main` (lines 133-156) -/

/-- How the run ends (or continues) after provider selection and token
resolution.  `pyError` is an uncaught Python exception: the interpreter
prints its message (as a traceback) and the process exits with status 1.
`haltMsg` is an explicit `print(...)` followed by `return code` (which
`sys.exit` turns into the exit status). -/
inductive MainOutcome where
  | notGitRepo
  | pyError (msg : List Char)
  | haltMsg (code : Nat) (msg : List Char)
  | proceed (hoster : Hoster) (repo_name : List Char) (token : List Char)
deriving DecidableEq, Repr

/-- Exit status of a finished outcome; `none` for `proceed` (the run
continues into the release sequence). -/
def MainOutcome.exitStatus : MainOutcome → Option Nat
  | .notGitRepo => some 1
  | .pyError _ => some 1
  | .haltMsg code _ => some code
  | .proceed .. => none

/-- Lines 144-148: `token = args.token`, then per-provider environment
fallback; each `if` re-tests `token is None` and compares `hoster.name`. -/
def resolveToken (h : Hoster) (args_token env_github env_gitlab : Option (List Char)) :
    Option (List Char) :=
  let token := args_token
  let token := if token = none ∧ h.pname = "GitHub".data then env_github else token
  let token := if token = none ∧ h.pname = "GitLab".data then env_gitlab else token
  token

/-- Lines 126-156 of `main`, given the (stripped) remote URL and the
token sources.  When neither URL pattern matched, `hoster` is `None` and
`repo_name` is unbound: with no `-t` token the first environment-fallback
`if` dereferences `hoster.name` and raises AttributeError (line 145);
with a `-t` token both fallbacks short-circuit and the `repo_name`
f-string raises UnboundLocalError (line 156).  Either exception is
uncaught. -/
def mainProviderPhase (repo_remote : List Char)
    (args_token env_github env_gitlab : Option (List Char)) : MainOutcome :=
  if repo_remote = [] then MainOutcome.notGitRepo
  else
    match selectHoster repo_remote with
    | none =>
      match args_token with
      | none => MainOutcome.pyError "AttributeError: NoneType object has no attribute name".data
      | some _ => MainOutcome.pyError "UnboundLocalError: local variable repo_name referenced before assignment".data
    | some (h, repo_name) =>
      match resolveToken h args_token env_github env_gitlab with
      | none => MainOutcome.haltMsg 1 ("No ".data ++ h.pname ++ " access token found.".data)
      | some t => MainOutcome.proceed h repo_name t

/-! ## Branch preconditions (lines 178-194) -/

/-- Outcome of the branch checks: either a printed message with `return 1`,
or the workflow proceeds with the chosen destination branch. -/
inductive BranchPhase where
  | halt (code : Nat) (msg : List Char)
  | ok (main_branch : List Char)
deriving DecidableEq, Repr

/-- Lines 180-194: require `develop` in the branch list; pick `main` as the
destination, falling back to `master`, and fail when neither exists; then
require the current local branch (from `git rev-parse --abbrev-ref HEAD`)
to equal `develop`. -/
def branchChecks (branch_names : List (List Char)) (cur_branch : List Char) :
    BranchPhase :=
  if "develop".data ∈ branch_names then
    let mb := if "main".data ∈ branch_names then some "main".data
      else if "master".data ∈ branch_names then some "master".data
      else none
    match mb with
    | none => BranchPhase.halt 1 "No main/master branch found.".data
    | some main_branch =>
      if cur_branch = "develop".data then BranchPhase.ok main_branch
      else BranchPhase.halt 1 "Current branch is not develop.".data
  else BranchPhase.halt 1 "No develop branch found.".data

/-! ## The confirmation gate (line 206) -/

/-- Outcome of the confirmation prompt: `abort0` is `return 0` (exit status
0 and nothing further executes); `proceedRelease` falls through to the
bump/commit/push/PR/merge/release sequence (lines 209-233). -/
inductive ConfirmPhase where
  | abort0
  | proceedRelease
deriving DecidableEq, Repr

/-- Line 206: `if input('Continue [y/N]') not in 'yY': return 0`.  Python
`in` on strings is substring containment, so the accepted inputs are
exactly the substrings of `yY`. -/
def confirmPhase (user_input : List Char) : ConfirmPhase :=
  if isSubstr user_input "yY".data then ConfirmPhase.proceedRelease
  else ConfirmPhase.abort0

/-! ## `GitHub.create_pull` (lines 31-32) and `GitLab.create_pull` (lines 66-67) -/

/-- The keyword arguments passed to `repo.create_pull` by
`GitHub.create_pull`. -/
structure GHCreatePullArgs where
  title : List Char
  body : List Char
  head : List Char
  base : List Char
deriving DecidableEq, Repr

/-- Line 32: `self.repo.create_pull(title=title, body=body, head=src, base=dest)`. -/
def GitHub.create_pull_args (src dest title body : List Char) : GHCreatePullArgs :=
  ⟨title, body, src, dest⟩

/-- Line 67: the dict literal passed to `project.mergerequests.create`,
as an ordered key/value list. -/
def GitLab.create_pull_payload (src dest title body : List Char) :
    List (List Char × List Char) :=
  [("source_branch".data, src), ("target_branch".data, dest), ("title".data, title)]

/-! ## `GitLab.merge` (lines 69-72)

```
while self.project.mergerequests.get(self.mr.iid).merge_status != "can_be_merged":
    time.sleep(1)
self.mr.merge()
```

The loop is modelled over the sequence of `merge_status` values the
successive GET polls return (`status k` is the k-th poll's answer), as a
fuel-bounded unfolding: `fuel` bounds how many polls are simulated, and a
`false` flag means the loop was still running when the bound ran out —
the code itself has no bound at all. -/

/-- One observable event of `GitLab.merge`: an API poll of the merge
request returning a status, the one-second sleep between polls, or the
final `mr.merge()` API call. -/
inductive MergeEvent where
  | poll (status : List Char)
  | sleepSecond
  | mergeCall
deriving DecidableEq, Repr

/-- Fuel-bounded unfolding of the `GitLab.merge` busy-wait loop: the trace
of events, and whether the loop exited (and hence `mr.merge()` ran)
within `fuel` polls. -/
def gitlabMergeRun (status : Nat → List Char) : Nat → List MergeEvent × Bool
  | 0 => ([], false)
  | fuel + 1 =>
    if status 0 = "can_be_merged".data then
      ([MergeEvent.poll (status 0), MergeEvent.mergeCall], true)
    else
      let r := gitlabMergeRun (fun n => status (n + 1)) fuel
      (MergeEvent.poll (status 0) :: MergeEvent.sleepSecond :: r.1, r.2)

/-- Trace of the first `k` polls when none of them reports
`can_be_merged`: poll, sleep one second, poll, sleep one second, ... -/
def badPolls (status : Nat → List Char) : Nat → List MergeEvent
  | 0 => []
  | k + 1 =>
    MergeEvent.poll (status 0) :: MergeEvent.sleepSecond ::
      badPolls (fun n => status (n + 1)) k

/-- Number of `sleepSecond` events in a trace. -/
def countSleeps (tr : List MergeEvent) : Nat :=
  tr.countP fun e => match e with
    | MergeEvent.sleepSecond => true
    | _ => false

/-- Number of polls in a trace whose status is not `can_be_merged`. -/
def countBadPolls (tr : List MergeEvent) : Nat :=
  tr.countP fun e => match e with
    | MergeEvent.poll s => decide (s ≠ "can_be_merged".data)
    | _ => false

/-! ## Theorems for the claims -/

/-- Claim C1, evaluated at the failing input: the confirmation gate at
line 206 tests `input(...) not in 'yY'`, and Python `in` on strings is
substring containment, so the empty input (pressing Enter) — and the
two-character input `yY` — are accepted and the workflow proceeds with
the release instead of exiting 0 with no side effects, contradicting the
claim and the prompt text `[y/N]` (whose capital N promises a No
default).  Inputs `n` and `N` do abort as claimed. -/
theorem C1_empty_input_proceeds :
    confirmPhase [] = ConfirmPhase.proceedRelease ∧
    confirmPhase "yY".data = ConfirmPhase.proceedRelease ∧
    confirmPhase "n".data = ConfirmPhase.abort0 ∧
    confirmPhase "N".data = ConfirmPhase.abort0 ∧
    confirmPhase "y".data = ConfirmPhase.proceedRelease ∧
    confirmPhase "Y".data = ConfirmPhase.proceedRelease := by
  decide

/-- Claim C3, counterexample to mutual exclusivity: both `re.search`
patterns match the remote URL `git@gitlab.gwdg.de:github.com/a/b.git`
(the GitHub pattern matches anywhere in the string), and since the
GitLab pattern is checked second it overwrites the GitHub selection —
so a URL matched by the GitHub pattern does not always yield the GitHub
variant. -/
theorem C3_counterexample :
    pySearch githubHost "git@gitlab.gwdg.de:github.com/a/b.git".data =
      some "a/b".data ∧
    pySearch gitlabHost "git@gitlab.gwdg.de:github.com/a/b.git".data =
      some "github.com/a/b".data ∧
    selectHoster "git@gitlab.gwdg.de:github.com/a/b.git".data =
      some (Hoster.gitlab, "github.com/a/b".data) := by
  decide

/-- Claim C3 as amended: a URL matched by the GitHub pattern and not by
the GitLab pattern selects the GitHub variant with the GitHub capture; a
URL matched by the GitLab pattern always selects the GitLab variant with
the GitLab capture (that check runs second and overrides); the patterns
are not mutually exclusive (see the counterexample). -/
theorem C3_provider_selection (s cap : List Char) :
    (pySearch githubHost s = some cap → pySearch gitlabHost s = none →
      selectHoster s = some (Hoster.github, cap)) ∧
    (pySearch gitlabHost s = some cap →
      selectHoster s = some (Hoster.gitlab, cap)) := by
  constructor
  · intro h1 h2
    simp [selectHoster, h1, h2]
  · intro h1
    simp [selectHoster, h1]

/-- Witness for `C3_provider_selection` at the two concrete remote URLs. -/
theorem C3_provider_selection_witness :
    selectHoster "git@github.com:acme/widget.git".data =
      some (Hoster.github, "acme/widget".data) ∧
    selectHoster "git@gitlab.gwdg.de:grp/prj.git".data =
      some (Hoster.gitlab, "grp/prj".data) :=
  ⟨(C3_provider_selection "git@github.com:acme/widget.git".data
      "acme/widget".data).1 (by decide) (by decide),
   (C3_provider_selection "git@gitlab.gwdg.de:grp/prj.git".data
      "grp/prj".data).2 (by decide)⟩

/-- Claim C4, counterexample to detection by containment: the identifier
`x-hatchling.build` contains the hatchling marker `hatchling.build` as a
substring, yet construction fails with the could-not-determine error,
because lines 83-88 compare the identifier by exact equality. -/
theorem C4_counterexample :
    isSubstr "hatchling.build".data "x-hatchling.build".data = true ∧
    detectBackend "x-hatchling.build".data =
      Except.error "Could not determine backend from pyproject.toml.".data ∧
    versionInit "x-hatchling.build".data (fun _ => true) =
      Except.error "Could not determine backend from pyproject.toml.".data :=
  ⟨by decide, by rfl, by rfl⟩

/-- Claim C4 as amended: backend detection compares the identifier for
exact equality — exactly `hatchling.build` yields the uv backend and
exactly `poetry.core.masonry.api` yields the poetry backend (provided
the tool probe succeeds); every other identifier value, including
strings merely containing those markers, makes construction fail with
the could-not-determine error. -/
theorem C4_backend_detection (backend : List Char) (tool : Backend → Bool) :
    (backend = "hatchling.build".data → tool Backend.uv = true →
      versionInit backend tool = Except.ok Backend.uv) ∧
    (backend = "poetry.core.masonry.api".data → tool Backend.poetry = true →
      versionInit backend tool = Except.ok Backend.poetry) ∧
    (backend ≠ "hatchling.build".data → backend ≠ "poetry.core.masonry.api".data →
      versionInit backend tool =
        Except.error "Could not determine backend from pyproject.toml.".data) := by
  refine ⟨fun h1 h2 => ?_, fun h1 h2 => ?_, fun h1 h2 => ?_⟩
  · subst h1
    simp [versionInit, detectBackend, h2]
  · subst h1
    have hne : "poetry.core.masonry.api".data ≠ "hatchling.build".data := by decide
    simp [versionInit, detectBackend, hne, h2]
  · simp [versionInit, detectBackend, h1, h2]

/-- Witness for `C4_backend_detection` at the three identifier kinds. -/
theorem C4_backend_detection_witness :
    versionInit "hatchling.build".data (fun _ => true) = Except.ok Backend.uv ∧
    versionInit "poetry.core.masonry.api".data (fun _ => true) =
      Except.ok Backend.poetry ∧
    versionInit "flit_core.buildapi".data (fun _ => true) =
      Except.error "Could not determine backend from pyproject.toml.".data :=
  ⟨(C4_backend_detection "hatchling.build".data (fun _ => true)).1 rfl rfl,
   (C4_backend_detection "poetry.core.masonry.api".data (fun _ => true)).2.1 rfl rfl,
   (C4_backend_detection "flit_core.buildapi".data (fun _ => true)).2.2
     (by decide) (by decide)⟩

/-- Claim C6: the version-reading operation of the `Version` class issues
the poetry-style `poetry version` query command for both detected
backend kinds — the command is independent of the detected backend. -/
theorem C6_version_query_constant :
    (∀ b : Backend, Version.versionQueryCmd b = "poetry version".data) ∧
    (∀ b₁ b₂ : Backend, Version.versionQueryCmd b₁ = Version.versionQueryCmd b₂) :=
  ⟨fun _ => rfl, fun _ _ => rfl⟩

/-- Claim C7: for both backend kinds, the bump-command builder called with
`None` returns exactly the same command string as when called with the
literal string `patch`. -/
theorem C7_none_defaults_to_patch :
    ∀ b : Backend,
      Version.command b none = Version.command b (some "patch".data) := by
  intro b
  cases b <;> rfl

/-- Claim C9: `GitLab.create_pull` discards its `body` argument — the
merge-request payload consists of exactly the keys `source_branch`,
`target_branch` and `title`, carries no `description`, and is unchanged
when `body` changes — whereas `GitHub.create_pull` passes `body`
through. -/
theorem C9_gitlab_body_discarded :
    ∀ src dest title body body' : List Char,
      GitLab.create_pull_payload src dest title body =
        GitLab.create_pull_payload src dest title body' ∧
      (GitLab.create_pull_payload src dest title body).map Prod.fst =
        ["source_branch".data, "target_branch".data, "title".data] ∧
      "description".data ∉ (GitLab.create_pull_payload src dest title body).map Prod.fst ∧
      (GitHub.create_pull_args src dest title body).body = body := by
  intro src dest title body body'
  refine ⟨rfl, rfl, ?_, rfl⟩
  show "description".data ∉ ["source_branch".data, "target_branch".data, "title".data]
  decide

/-- Claim C2: for every remote URL matching neither provider pattern (and
every combination of token argument and environment), `main` halts:
`hoster` stays `None`, the next dereference raises an uncaught exception
whose message the interpreter prints before exiting with status 1, and
the run never reaches the `proceed` state, so no provider API call is
ever made. -/
theorem C2_no_provider_halts (repo_remote : List Char)
    (args_token env_github env_gitlab : Option (List Char))
    (hne : repo_remote ≠ []) (hsel : selectHoster repo_remote = none) :
    (∃ msg, mainProviderPhase repo_remote args_token env_github env_gitlab =
      MainOutcome.pyError msg) ∧
    (mainProviderPhase repo_remote args_token env_github env_gitlab).exitStatus =
      some 1 ∧
    ∀ h rn t, mainProviderPhase repo_remote args_token env_github env_gitlab ≠
      MainOutcome.proceed h rn t := by
  unfold mainProviderPhase
  rw [if_neg hne, hsel]
  cases args_token with
  | none => exact ⟨⟨_, rfl⟩, rfl, fun h rn t h' => MainOutcome.noConfusion h'⟩
  | some t0 => exact ⟨⟨_, rfl⟩, rfl, fun h rn t h' => MainOutcome.noConfusion h'⟩

/-- Witness for `C2_no_provider_halts` at a bitbucket-style URL with an
explicit token: the run dies on the unbound `repo_name` with exit
status 1. -/
theorem C2_no_provider_halts_witness :
    (mainProviderPhase "https://bitbucket.org/a/b.git".data (some "tok".data)
      none none).exitStatus = some 1 ∧
    mainProviderPhase "https://bitbucket.org/a/b.git".data (some "tok".data)
      none none =
      MainOutcome.pyError
        "UnboundLocalError: local variable repo_name referenced before assignment".data :=
  ⟨(C2_no_provider_halts "https://bitbucket.org/a/b.git".data (some "tok".data)
      none none (by decide) (by decide)).2.1,
   by rfl⟩

/-- Claim C5: the three branch preconditions run in source order and each
halts with exit code 1 and its message — a branch list lacking `develop`
halts (regardless of anything else); with `develop` present, a list
lacking both `main` and `master` halts; with those satisfied, a current
branch other than `develop` halts; and when everything passes, `main` is
preferred over `master` as the destination. -/
theorem C5_branch_checks (branch_names : List (List Char)) (cur_branch : List Char) :
    ("develop".data ∉ branch_names →
      branchChecks branch_names cur_branch =
        BranchPhase.halt 1 "No develop branch found.".data) ∧
    ("develop".data ∈ branch_names → "main".data ∉ branch_names →
      "master".data ∉ branch_names →
      branchChecks branch_names cur_branch =
        BranchPhase.halt 1 "No main/master branch found.".data) ∧
    ("develop".data ∈ branch_names →
      ("main".data ∈ branch_names ∨ "master".data ∈ branch_names) →
      cur_branch ≠ "develop".data →
      branchChecks branch_names cur_branch =
        BranchPhase.halt 1 "Current branch is not develop.".data) ∧
    ("develop".data ∈ branch_names → "main".data ∈ branch_names →
      cur_branch = "develop".data →
      branchChecks branch_names cur_branch = BranchPhase.ok "main".data) ∧
    ("develop".data ∈ branch_names → "main".data ∉ branch_names →
      "master".data ∈ branch_names → cur_branch = "develop".data →
      branchChecks branch_names cur_branch = BranchPhase.ok "master".data) := by
  refine ⟨fun h1 => ?_, fun h1 h2 h3 => ?_, fun h1 h2 h3 => ?_,
    fun h1 h2 h3 => ?_, fun h1 h2 h3 h4 => ?_⟩
  · simp [branchChecks, h1]
  · simp [branchChecks, h1, h2, h3]
  · rcases h2 with h2 | h2
    · simp [branchChecks, h1, h2, h3]
    · by_cases hm : "main".data ∈ branch_names
      · simp [branchChecks, h1, hm, h3]
      · simp [branchChecks, h1, hm, h2, h3]
  · simp [branchChecks, h1, h2, h3]
  · simp [branchChecks, h1, h2, h3, h4]

/-- Witness for `C5_branch_checks`: the develop check fires first on an
empty branch list; with all three branches present and the current
branch `develop` the destination is `main`; with `develop` and `master`
but the wrong current branch, the current-branch check fires. -/
theorem C5_branch_checks_witness :
    branchChecks [] "develop".data =
      BranchPhase.halt 1 "No develop branch found.".data ∧
    branchChecks ["develop".data, "main".data, "master".data] "develop".data =
      BranchPhase.ok "main".data ∧
    branchChecks ["develop".data, "master".data] "feature".data =
      BranchPhase.halt 1 "Current branch is not develop.".data :=
  ⟨(C5_branch_checks [] "develop".data).1 (by decide),
   (C5_branch_checks ["develop".data, "main".data, "master".data]
      "develop".data).2.2.2.1 (by decide) (by decide) (by decide),
   (C5_branch_checks ["develop".data, "master".data] "feature".data).2.2.1
     (by decide) (Or.inr (by decide)) (by decide)⟩

/-- Claim C10: the `Not a git repository.` branch is unreachable under
the assumption that the `git config --get remote.origin.url` query
either exits nonzero (no remote configured) or prints a non-blank URL:
`shell` is called with `check` left at its default true, so a nonzero
exit raises CalledProcessError before the emptiness guard runs, and a
successful query yields a non-empty stripped string. -/
theorem C10_guard_unreachable (res : ProcResult)
    (h : res.returncode ≠ 0 ∨ pyStrip res.stdout ≠ []) :
    remotePhase res ≠ RemotePhase.notGitRepo ∧
    (res.returncode ≠ 0 →
      remotePhase res = RemotePhase.raised "CalledProcessError".data) := by
  constructor
  · rcases h with h1 | h1
    · simp [remotePhase, shell, h1]
    · by_cases hrc : res.returncode = 0
      · simp [remotePhase, shell, hrc, h1]
      · simp [remotePhase, shell, hrc]
  · intro h1
    simp [remotePhase, shell, h1]

/-- Witness for `C10_guard_unreachable` at a failing query (exit status 1,
empty output — the situation of a repository with no remote). -/
theorem C10_guard_unreachable_witness :
    remotePhase ⟨1, []⟩ ≠ RemotePhase.notGitRepo ∧
    remotePhase ⟨1, []⟩ = RemotePhase.raised "CalledProcessError".data :=
  ⟨(C10_guard_unreachable ⟨1, []⟩ (Or.inl (by decide))).1,
   (C10_guard_unreachable ⟨1, []⟩ (Or.inl (by decide))).2 (by decide)⟩

/-- When none of the first `fuel` polls reports `can_be_merged`, the loop
is still running when the bound runs out: the trace is pure poll/sleep
alternation and `mr.merge()` has not been called. -/
theorem gitlabMergeRun_no_good (status : Nat → List Char) :
    ∀ fuel, (∀ k, k < fuel → status k ≠ "can_be_merged".data) →
      gitlabMergeRun status fuel = (badPolls status fuel, false) := by
  intro fuel
  induction fuel generalizing status with
  | zero => intro _; rfl
  | succ n ih =>
    intro h
    have h0 := h 0 (Nat.succ_pos n)
    have ih' := ih (fun m => status (m + 1)) (fun k hk => h (k + 1) (Nat.succ_lt_succ hk))
    simp only [gitlabMergeRun, badPolls, if_neg h0, ih']

/-- A poll/sleep trace contains no `mergeCall` event. -/
theorem mergeCall_not_mem_badPolls (status : Nat → List Char) :
    ∀ k, MergeEvent.mergeCall ∉ badPolls status k := by
  intro k
  induction k generalizing status with
  | zero => simp [badPolls]
  | succ n ih => simp [badPolls, ih]

/-- When poll `k` is the first to report `can_be_merged` and the fuel
reaches it, the loop runs exactly `k` failed polls (each followed by a
one-second sleep), then the successful poll, then `mr.merge()`. -/
theorem gitlabMergeRun_first_good (status : Nat → List Char) :
    ∀ k fuel, k < fuel → status k = "can_be_merged".data →
      (∀ j, j < k → status j ≠ "can_be_merged".data) →
      gitlabMergeRun status fuel =
        (badPolls status k ++
          [MergeEvent.poll "can_be_merged".data, MergeEvent.mergeCall], true) := by
  intro k
  induction k generalizing status with
  | zero =>
    intro fuel hlt hgood _
    cases fuel with
    | zero => exact absurd hlt (Nat.not_lt_zero 0)
    | succ n =>
      have hstep : gitlabMergeRun status (n + 1) =
          ([MergeEvent.poll (status 0), MergeEvent.mergeCall], true) := by
        simp only [gitlabMergeRun, if_pos hgood]
      rw [hstep, hgood]
      rfl
  | succ m ih =>
    intro fuel hlt hgood hmin
    cases fuel with
    | zero => exact absurd hlt (Nat.not_lt_zero _)
    | succ n =>
      have h0 : status 0 ≠ "can_be_merged".data := hmin 0 (Nat.succ_pos m)
      have ih' := ih (fun i => status (i + 1)) n (Nat.lt_of_succ_lt_succ hlt) hgood
        (fun j hj => hmin (j + 1) (Nat.succ_lt_succ hj))
      simp only [gitlabMergeRun, badPolls, if_neg h0, ih', List.cons_append]

/-- In every trace of the loop, a `mergeCall` event is immediately
preceded by a poll that reported `can_be_merged`. -/
theorem mergeCall_after_good_poll (status : Nat → List Char) :
    ∀ fuel pre post,
      (gitlabMergeRun status fuel).1 = pre ++ MergeEvent.mergeCall :: post →
      pre.getLast? = some (MergeEvent.poll "can_be_merged".data) := by
  intro fuel
  induction fuel generalizing status with
  | zero =>
    intro pre post h
    exact absurd h (by simp [gitlabMergeRun])
  | succ n ih =>
    intro pre post h
    by_cases h0 : status 0 = "can_be_merged".data
    · simp only [gitlabMergeRun, if_pos h0] at h
      cases pre with
      | nil =>
        injection h with h1 _
        exact absurd h1 (fun hh => MergeEvent.noConfusion hh)
      | cons a pre' =>
        injection h with h1 h2
        cases pre' with
        | nil =>
          rw [← h1, h0]
          rfl
        | cons b pre'' =>
          injection h2 with h3 h4
          exact absurd h4.symm (by simp)
    · simp only [gitlabMergeRun, if_neg h0] at h
      cases pre with
      | nil =>
        injection h with h1 _
        exact absurd h1 (fun hh => MergeEvent.noConfusion hh)
      | cons a pre' =>
        injection h with h1 h2
        cases pre' with
        | nil =>
          injection h2 with h3 _
          exact absurd h3 (fun hh => MergeEvent.noConfusion hh)
        | cons b pre'' =>
          injection h2 with h3 h4
          have ihres := ih (fun m => status (m + 1)) pre'' post h4
          rw [List.getLast?_cons_cons]
          cases pre'' with
          | nil => exact absurd ihres (by simp)
          | cons c pre''' =>
            rw [List.getLast?_cons_cons]
            exact ihres

/-- The loop sleeps exactly one second per poll that did not report
`can_be_merged`: in every trace, sleeps and failed polls count equal. -/
theorem countSleeps_eq_countBadPolls (status : Nat → List Char) :
    ∀ fuel, countSleeps (gitlabMergeRun status fuel).1 =
      countBadPolls (gitlabMergeRun status fuel).1 := by
  intro fuel
  induction fuel generalizing status with
  | zero => rfl
  | succ n ih =>
    by_cases h0 : status 0 = "can_be_merged".data
    · simp [gitlabMergeRun, if_pos h0, countSleeps, countBadPolls,
        List.countP_cons, h0]
    · have ih' := ih (fun m => status (m + 1))
      simp [gitlabMergeRun, if_neg h0, countSleeps, countBadPolls,
        List.countP_cons, h0] at ih' ⊢
      exact ih'

/-- Claim C8: the `GitLab.merge` busy-wait loop never issues the provider
merge call before a mergeability poll has reported `can_be_merged`
(every `mergeCall` in a trace is immediately preceded by such a poll);
it polls once per failed check with exactly one one-second sleep each
(sleep count equals failed-poll count); when the first `can_be_merged`
answer arrives at poll `k` it merges right after that poll; and when no
poll within any bound `fuel` reports `can_be_merged` the loop is still
running at the bound with no merge performed — the code has no timeout,
so a never-mergeable request blocks forever. -/
theorem C8_merge_waits_for_mergeable (status : Nat → List Char) (fuel : Nat) :
    ((∀ k, k < fuel → status k ≠ "can_be_merged".data) →
      gitlabMergeRun status fuel = (badPolls status fuel, false) ∧
      MergeEvent.mergeCall ∉ (gitlabMergeRun status fuel).1) ∧
    (∀ k, k < fuel → status k = "can_be_merged".data →
      (∀ j, j < k → status j ≠ "can_be_merged".data) →
      gitlabMergeRun status fuel =
        (badPolls status k ++
          [MergeEvent.poll "can_be_merged".data, MergeEvent.mergeCall], true)) ∧
    (∀ pre post,
      (gitlabMergeRun status fuel).1 = pre ++ MergeEvent.mergeCall :: post →
      pre.getLast? = some (MergeEvent.poll "can_be_merged".data)) ∧
    countSleeps (gitlabMergeRun status fuel).1 =
      countBadPolls (gitlabMergeRun status fuel).1 := by
  refine ⟨fun h => ⟨gitlabMergeRun_no_good status fuel h, ?_⟩,
    fun k => gitlabMergeRun_first_good status k fuel,
    mergeCall_after_good_poll status fuel,
    countSleeps_eq_countBadPolls status fuel⟩
  rw [gitlabMergeRun_no_good status fuel h]
  exact mergeCall_not_mem_badPolls status fuel

/-- Witness for `C8_merge_waits_for_mergeable`: a status stuck at
`checking` leaves the loop unfinished after two polls with no merge,
an immediately mergeable status merges right after the first poll, and
that merge call is indeed preceded by the successful poll. -/
theorem C8_merge_waits_for_mergeable_witness :
    gitlabMergeRun (fun _ => "checking".data) 2 =
      (badPolls (fun _ => "checking".data) 2, false) ∧
    gitlabMergeRun (fun _ => "can_be_merged".data) 1 =
      ([MergeEvent.poll "can_be_merged".data, MergeEvent.mergeCall], true) ∧
    List.getLast? [MergeEvent.poll "can_be_merged".data] =
      some (MergeEvent.poll "can_be_merged".data) :=
  ⟨((C8_merge_waits_for_mergeable (fun _ => "checking".data) 2).1
      (fun k _ => by decide)).1,
   (C8_merge_waits_for_mergeable (fun _ => "can_be_merged".data) 1).2.1 0
     (by decide) (by decide) (fun j hj => absurd hj (Nat.not_lt_zero j)),
   (C8_merge_waits_for_mergeable (fun _ => "can_be_merged".data) 1).2.2.1
     [MergeEvent.poll "can_be_merged".data] [] (by decide)⟩

end DoPythonRelease
